import Mathlib

/-!
Shallow embedding of `custom_components/sunpower/sunpower.py`.

The module is a retrying JSON fetcher.  One GET attempt has five disjoint
outcomes, matching the five exception/return classes the source dispatches
on (`requests.get` returning a response whose body parses, a
`requests.exceptions.ConnectionError`, a `requests.exceptions.Timeout`,
any other `requests.exceptions.RequestException`, or a
`simplejson.errors.JSONDecodeError` from `response.json()`).  The network
is modelled as a transport oracle mapping the attempt index to the
outcome of that attempt.  A run is recorded as a trace: the list of GET
requests issued (url and timeout of each), the list of sleep durations in
order, and either a parsed value or one of the two typed exceptions
defined in the source.  The run result is an `Option`: `none` models an
exception other than the two typed ones escaping (in the source the only
candidate is an `IndexError` from `RETRY_DELAYS[attempt]`).
-/

/-- Constant `MAX_RETRIES` from sunpower.py. -/
def MAX_RETRIES : Nat := 3

/-- Constant `RETRY_DELAYS` from sunpower.py, seconds between retries. -/
def RETRY_DELAYS : List Nat := [2, 5, 10]

/-- Outcome of one GET attempt: the five disjoint classes the retry loop
of `_request_with_retry` dispatches on. -/
inductive Outcome (α : Type) where
  | success (json : α)
  | connectionError (msg : String)
  | timeoutError (msg : String)
  | requestError (msg : String)
  | jsonDecodeError (msg : String)
deriving Repr, DecidableEq

/-- The two exception classes defined in sunpower.py:
`ConnectionException` and `ParseException`. -/
inductive FetchError where
  | connectionException (msg : String)
  | parseException (msg : String)
deriving Repr, DecidableEq

/-- Python string interpolation of `last_error`: `str(None)` is `"None"`,
otherwise the message of the recorded error. -/
def strOfLastError : Option String → String
  | none => "None"
  | some e => e

/-- Trace of one call of `_request_with_retry`: every GET issued with its
url and timeout, every sleep duration in order, and the final result. -/
structure RunTrace (α : Type) where
  requests : List (String × Nat)
  sleeps : List Nat
  result : Except FetchError α
deriving Repr

/-- The attempt loop of `SunPowerMonitor._request_with_retry`.  The first
list argument is the remaining part of `range(MAX_RETRIES)`; the
`Option String` is `last_error`; the next two arguments accumulate the
requests issued and the sleeps performed so far.  A `none` result models
an exception other than `ConnectionException` and `ParseException`
escaping, namely an `IndexError` from the `RETRY_DELAYS[attempt]` read. -/
def retryLoop (transport : Nat → Outcome α) (url : String) (timeout : Nat) :
    List Nat → Option String → List (String × Nat) → List Nat → Option (RunTrace α)
  | [], lastError, reqs, sleeps =>
      some ⟨reqs, sleeps, .error (.connectionException
        ("Failed to connect to PVS after " ++ toString MAX_RETRIES ++ " attempts: "
          ++ strOfLastError lastError))⟩
  | attempt :: rest, _lastError, reqs, sleeps =>
      let reqs2 := reqs ++ [(url, timeout)]
      match transport attempt with
      | .success j => some ⟨reqs2, sleeps, .ok j⟩
      | .connectionError e =>
          if attempt < MAX_RETRIES - 1 then
            match RETRY_DELAYS.get? attempt with
            | some delay =>
                retryLoop transport url timeout rest (some e) reqs2 (sleeps ++ [delay])
            | none => none
          else
            retryLoop transport url timeout rest (some e) reqs2 sleeps
      | .timeoutError _ =>
          some ⟨reqs2, sleeps, .error (.connectionException
            ("PVS request timed out after " ++ toString timeout ++ "s"))⟩
      | .requestError e =>
          some ⟨reqs2, sleeps, .error (.connectionException
            ("Failed to connect to PVS after " ++ toString MAX_RETRIES ++ " attempts: "
              ++ strOfLastError (some e)))⟩
      | .jsonDecodeError e =>
          some ⟨reqs2, sleeps, .error (.parseException
            ("Invalid JSON response from PVS: " ++ e))⟩

/-- Embedding of `SunPowerMonitor._request_with_retry url timeout`. -/
def requestWithRetry (transport : Nat → Outcome α) (url : String) (timeout : Nat) :
    Option (RunTrace α) :=
  retryLoop transport url timeout (List.range MAX_RETRIES) none [] []

/-- State of a `SunPowerMonitor` instance: the host and the command url
built once in `__init__`. -/
structure SunPowerMonitor where
  host : String
  command_url : String
deriving Repr, DecidableEq

/-- Embedding of `SunPowerMonitor.__init__`. -/
def SunPowerMonitor.init (host : String) : SunPowerMonitor :=
  ⟨host, "http://" ++ host ++ "/cgi-bin/dl_cgi?Command="⟩

/-- Embedding of `SunPowerMonitor.generic_command`. -/
def SunPowerMonitor.generic_command (m : SunPowerMonitor)
    (transport : Nat → Outcome α) (command : String) : Option (RunTrace α) :=
  requestWithRetry transport (m.command_url ++ command) 120

/-- Embedding of `SunPowerMonitor.device_list`. -/
def SunPowerMonitor.device_list (m : SunPowerMonitor)
    (transport : Nat → Outcome α) : Option (RunTrace α) :=
  m.generic_command transport "DeviceList"

/-- Embedding of `SunPowerMonitor.energy_storage_system_status`. -/
def SunPowerMonitor.energy_storage_system_status (m : SunPowerMonitor)
    (transport : Nat → Outcome α) : Option (RunTrace α) :=
  requestWithRetry transport
    ("http://" ++ m.host ++ "/cgi-bin/dl_cgi/energy-storage-system/status") 120

/-- Embedding of `SunPowerMonitor.network_status`. -/
def SunPowerMonitor.network_status (m : SunPowerMonitor)
    (transport : Nat → Outcome α) : Option (RunTrace α) :=
  m.generic_command transport "Get_Comm"

/-- Concrete transport: connectivity failures on attempts 1 and 2, valid
JSON on attempt 3. -/
def transportRetryTwice : Nat → Outcome Nat
  | 0 => .connectionError "refused"
  | 1 => .connectionError "reset"
  | _ => .success 7

/-- Concrete transport: a connectivity failure on every attempt. -/
def transportAlwaysConnFail : Nat → Outcome Nat := fun _ => .connectionError "refused"

/-- Concrete transport: a 200 response whose body is not valid JSON. -/
def transportBadJson : Nat → Outcome Nat := fun _ => .jsonDecodeError "Expecting value"

/-- Concrete transport: a timeout on every attempt. -/
def transportTimesOut : Nat → Outcome Nat := fun _ => .timeoutError "read timed out"

/-- Concrete transport: a generic request failure on every attempt. -/
def transportGenericFail : Nat → Outcome Nat := fun _ => .requestError "bad status line"

/-- Concrete transport: a connectivity failure on attempt 1, then a
timeout on attempt 2. -/
def transportConnThenTimeout : Nat → Outcome Nat
  | 0 => .connectionError "refused"
  | _ => .timeoutError "read timed out"

/-- Master lemma: on every transport, `_request_with_retry` terminates
with one of the two typed exceptions or a parsed value (the
`RETRY_DELAYS[attempt]` read never goes out of bounds), all requests use
the given url and timeout, between 1 and `MAX_RETRIES` requests are
issued, the sleep sequence is a prefix of `[2, 5]`, and a parsed value is
only returned when the last attempt actually succeeded with it. -/
lemma requestWithRetry_total (transport : Nat → Outcome α) (url : String) (timeout : Nat) :
    ∃ tr : RunTrace α,
      requestWithRetry transport url timeout = some tr ∧
      tr.requests = List.replicate tr.requests.length (url, timeout) ∧
      1 ≤ tr.requests.length ∧ tr.requests.length ≤ MAX_RETRIES ∧
      (tr.sleeps = [] ∨ tr.sleeps = [2] ∨ tr.sleeps = [2, 5]) ∧
      (∀ j : α, tr.result = Except.ok j →
        transport (tr.requests.length - 1) = Outcome.success j) := by
  have hrange : List.range MAX_RETRIES = [0, 1, 2] := rfl
  unfold requestWithRetry
  rw [hrange]
  rcases h0 : transport 0 with j | e0 | m | e | e
  · exact ⟨⟨[(url, timeout)], [], .ok j⟩, by simp [retryLoop, h0], rfl, by simp,
      by simp [MAX_RETRIES], Or.inl rfl, fun j2 hj2 => by cases hj2; exact h0⟩
  · rcases h1 : transport 1 with j | e1 | m | e | e
    · exact ⟨⟨[(url, timeout), (url, timeout)], [2], .ok j⟩,
        by simp [retryLoop, h0, h1, MAX_RETRIES, RETRY_DELAYS], rfl, by simp,
        by simp [MAX_RETRIES], Or.inr (Or.inl rfl), fun j2 hj2 => by cases hj2; exact h1⟩
    · rcases h2 : transport 2 with j | e2 | m | e | e
      · exact ⟨⟨[(url, timeout), (url, timeout), (url, timeout)], [2, 5], .ok j⟩,
          by simp [retryLoop, h0, h1, h2, MAX_RETRIES, RETRY_DELAYS], rfl, by simp,
          by simp [MAX_RETRIES], Or.inr (Or.inr rfl), fun j2 hj2 => by cases hj2; exact h2⟩
      · exact ⟨⟨[(url, timeout), (url, timeout), (url, timeout)], [2, 5],
            .error (.connectionException ("Failed to connect to PVS after "
              ++ toString MAX_RETRIES ++ " attempts: " ++ strOfLastError (some e2)))⟩,
          by simp [retryLoop, h0, h1, h2, MAX_RETRIES, RETRY_DELAYS], rfl, by simp,
          by simp [MAX_RETRIES], Or.inr (Or.inr rfl),
          fun j2 hj2 => Except.noConfusion hj2⟩
      · exact ⟨⟨[(url, timeout), (url, timeout), (url, timeout)], [2, 5],
            .error (.connectionException ("PVS request timed out after "
              ++ toString timeout ++ "s"))⟩,
          by simp [retryLoop, h0, h1, h2, MAX_RETRIES, RETRY_DELAYS], rfl, by simp,
          by simp [MAX_RETRIES], Or.inr (Or.inr rfl),
          fun j2 hj2 => Except.noConfusion hj2⟩
      · exact ⟨⟨[(url, timeout), (url, timeout), (url, timeout)], [2, 5],
            .error (.connectionException ("Failed to connect to PVS after "
              ++ toString MAX_RETRIES ++ " attempts: " ++ strOfLastError (some e)))⟩,
          by simp [retryLoop, h0, h1, h2, MAX_RETRIES, RETRY_DELAYS], rfl, by simp,
          by simp [MAX_RETRIES], Or.inr (Or.inr rfl),
          fun j2 hj2 => Except.noConfusion hj2⟩
      · exact ⟨⟨[(url, timeout), (url, timeout), (url, timeout)], [2, 5],
            .error (.parseException ("Invalid JSON response from PVS: " ++ e))⟩,
          by simp [retryLoop, h0, h1, h2, MAX_RETRIES, RETRY_DELAYS], rfl, by simp,
          by simp [MAX_RETRIES], Or.inr (Or.inr rfl),
          fun j2 hj2 => Except.noConfusion hj2⟩
    · exact ⟨⟨[(url, timeout), (url, timeout)], [2],
          .error (.connectionException ("PVS request timed out after "
            ++ toString timeout ++ "s"))⟩,
        by simp [retryLoop, h0, h1, MAX_RETRIES, RETRY_DELAYS], rfl, by simp,
        by simp [MAX_RETRIES], Or.inr (Or.inl rfl),
        fun j2 hj2 => Except.noConfusion hj2⟩
    · exact ⟨⟨[(url, timeout), (url, timeout)], [2],
          .error (.connectionException ("Failed to connect to PVS after "
            ++ toString MAX_RETRIES ++ " attempts: " ++ strOfLastError (some e)))⟩,
        by simp [retryLoop, h0, h1, MAX_RETRIES, RETRY_DELAYS], rfl, by simp,
        by simp [MAX_RETRIES], Or.inr (Or.inl rfl),
        fun j2 hj2 => Except.noConfusion hj2⟩
    · exact ⟨⟨[(url, timeout), (url, timeout)], [2],
          .error (.parseException ("Invalid JSON response from PVS: " ++ e))⟩,
        by simp [retryLoop, h0, h1, MAX_RETRIES, RETRY_DELAYS], rfl, by simp,
        by simp [MAX_RETRIES], Or.inr (Or.inl rfl),
        fun j2 hj2 => Except.noConfusion hj2⟩
  · exact ⟨⟨[(url, timeout)], [],
        .error (.connectionException ("PVS request timed out after "
          ++ toString timeout ++ "s"))⟩,
      by simp [retryLoop, h0], rfl, by simp, by simp [MAX_RETRIES], Or.inl rfl,
      fun j2 hj2 => Except.noConfusion hj2⟩
  · exact ⟨⟨[(url, timeout)], [],
        .error (.connectionException ("Failed to connect to PVS after "
          ++ toString MAX_RETRIES ++ " attempts: " ++ strOfLastError (some e)))⟩,
      by simp [retryLoop, h0], rfl, by simp, by simp [MAX_RETRIES], Or.inl rfl,
      fun j2 hj2 => Except.noConfusion hj2⟩
  · exact ⟨⟨[(url, timeout)], [],
        .error (.parseException ("Invalid JSON response from PVS: " ++ e))⟩,
      by simp [retryLoop, h0], rfl, by simp, by simp [MAX_RETRIES], Or.inl rfl,
      fun j2 hj2 => Except.noConfusion hj2⟩

/-- C1: if the transport raises a connectivity failure on attempts 1 and 2
and returns a response with valid JSON on attempt 3, `_request_with_retry`
returns that parsed JSON, sleeps exactly twice with durations 2 then 5 in
that order (no sleep after the success), and issues exactly 3 GET
requests. -/
theorem retry_then_succeed (transport : Nat → Outcome α) (url : String) (timeout : Nat)
    (e1 e2 : String) (j : α)
    (h0 : transport 0 = .connectionError e1) (h1 : transport 1 = .connectionError e2)
    (h2 : transport 2 = .success j) :
    requestWithRetry transport url timeout =
      some ⟨[(url, timeout), (url, timeout), (url, timeout)], [2, 5], .ok j⟩ := by
  have hrange : List.range MAX_RETRIES = [0, 1, 2] := rfl
  unfold requestWithRetry
  rw [hrange]
  simp [retryLoop, h0, h1, h2, MAX_RETRIES, RETRY_DELAYS]

/-- Witness for C1 on a concrete transport. -/
theorem retry_then_succeed_witness :
    requestWithRetry transportRetryTwice "http://pvs/x" 120 =
      some ⟨[("http://pvs/x", 120), ("http://pvs/x", 120), ("http://pvs/x", 120)],
        [2, 5], .ok 7⟩ :=
  retry_then_succeed transportRetryTwice "http://pvs/x" 120 "refused" "reset" 7 rfl rfl rfl

/-- C2: if the transport raises a connectivity failure on every attempt,
`_request_with_retry` raises a `ConnectionException` after exactly 3
attempts and exactly 2 sleeps (2 seconds then 5 seconds), and the
exception message carries the attempt count and the last underlying
error. -/
theorem exhaustion_connection_failure (transport : Nat → Outcome α) (url : String)
    (timeout : Nat) (e0 e1 e2 : String)
    (h0 : transport 0 = .connectionError e0) (h1 : transport 1 = .connectionError e1)
    (h2 : transport 2 = .connectionError e2) :
    requestWithRetry transport url timeout =
      some ⟨[(url, timeout), (url, timeout), (url, timeout)], [2, 5],
        .error (.connectionException
          ("Failed to connect to PVS after " ++ toString MAX_RETRIES ++ " attempts: " ++ e2))⟩ := by
  have hrange : List.range MAX_RETRIES = [0, 1, 2] := rfl
  unfold requestWithRetry
  rw [hrange]
  simp [retryLoop, h0, h1, h2, MAX_RETRIES, RETRY_DELAYS, strOfLastError]

/-- Witness for C2 on a concrete transport. -/
theorem exhaustion_connection_failure_witness :
    requestWithRetry transportAlwaysConnFail "http://pvs/x" 120 =
      some ⟨[("http://pvs/x", 120), ("http://pvs/x", 120), ("http://pvs/x", 120)], [2, 5],
        .error (.connectionException "Failed to connect to PVS after 3 attempts: refused")⟩ :=
  exhaustion_connection_failure transportAlwaysConnFail "http://pvs/x" 120
    "refused" "refused" "refused" rfl rfl rfl

/-- C3: if the transport returns a 200 response whose body is not valid
JSON on the first attempt, `_request_with_retry` raises a
`ParseException` (not a `ConnectionException`), with exactly one request
attempted and no sleeps. -/
theorem invalid_json_parse_failure (transport : Nat → Outcome α) (url : String)
    (timeout : Nat) (e : String) (h0 : transport 0 = .jsonDecodeError e) :
    requestWithRetry transport url timeout =
      some ⟨[(url, timeout)], [],
        .error (.parseException ("Invalid JSON response from PVS: " ++ e))⟩ := by
  have hrange : List.range MAX_RETRIES = [0, 1, 2] := rfl
  unfold requestWithRetry
  rw [hrange]
  simp [retryLoop, h0]

/-- Witness for C3 on a concrete transport. -/
theorem invalid_json_parse_failure_witness :
    requestWithRetry transportBadJson "http://pvs/x" 120 =
      some ⟨[("http://pvs/x", 120)], [],
        .error (.parseException "Invalid JSON response from PVS: Expecting value")⟩ :=
  invalid_json_parse_failure transportBadJson "http://pvs/x" 120 "Expecting value" rfl

/-- C4: if the transport raises a timeout on the first attempt,
`_request_with_retry` raises a `ConnectionException` immediately whose
message indicates the timeout, with exactly one request attempted and
zero sleeps; the timeout is not followed by a retry. -/
theorem timeout_not_retried (transport : Nat → Outcome α) (url : String)
    (timeout : Nat) (e : String) (h0 : transport 0 = .timeoutError e) :
    requestWithRetry transport url timeout =
      some ⟨[(url, timeout)], [],
        .error (.connectionException
          ("PVS request timed out after " ++ toString timeout ++ "s"))⟩ := by
  have hrange : List.range MAX_RETRIES = [0, 1, 2] := rfl
  unfold requestWithRetry
  rw [hrange]
  simp [retryLoop, h0]

/-- Witness for C4 on a concrete transport. -/
theorem timeout_not_retried_witness :
    requestWithRetry transportTimesOut "http://pvs/x" 120 =
      some ⟨[("http://pvs/x", 120)], [],
        .error (.connectionException "PVS request timed out after 120s")⟩ :=
  timeout_not_retried transportTimesOut "http://pvs/x" 120 "read timed out" rfl

/-- C5: if the transport raises a generic request failure (neither a
connectivity failure nor a timeout) on attempt 1, `_request_with_retry`
raises a `ConnectionException` wrapping that error after exactly one
attempt, with no further requests issued and no sleeps. -/
theorem generic_request_failure_stops (transport : Nat → Outcome α) (url : String)
    (timeout : Nat) (e : String) (h0 : transport 0 = .requestError e) :
    requestWithRetry transport url timeout =
      some ⟨[(url, timeout)], [],
        .error (.connectionException
          ("Failed to connect to PVS after " ++ toString MAX_RETRIES ++ " attempts: " ++ e))⟩ := by
  have hrange : List.range MAX_RETRIES = [0, 1, 2] := rfl
  unfold requestWithRetry
  rw [hrange]
  simp [retryLoop, h0, strOfLastError]

/-- Witness for C5 on a concrete transport. -/
theorem generic_request_failure_stops_witness :
    requestWithRetry transportGenericFail "http://pvs/x" 120 =
      some ⟨[("http://pvs/x", 120)], [],
        .error (.connectionException
          "Failed to connect to PVS after 3 attempts: bad status line")⟩ :=
  generic_request_failure_stops transportGenericFail "http://pvs/x" 120 "bad status line" rfl

/-- C6: on every transport, every url and every timeout, the call runs to
completion without any untyped exception escaping (in particular the
`RETRY_DELAYS[attempt]` read never raises an IndexError), and its result
is either parsed JSON, a `ConnectionException`, or a `ParseException`;
a parsed value is only returned when an attempt actually succeeded, so no
failure is silently swallowed. -/
theorem only_typed_errors_escape (transport : Nat → Outcome α) (url : String) (timeout : Nat) :
    ∃ tr : RunTrace α, requestWithRetry transport url timeout = some tr ∧
      ((∃ j, tr.result = Except.ok j) ∨
        (∃ m, tr.result = Except.error (FetchError.connectionException m)) ∨
        (∃ m, tr.result = Except.error (FetchError.parseException m))) ∧
      (∀ j : α, tr.result = Except.ok j →
        transport (tr.requests.length - 1) = Outcome.success j) := by
  obtain ⟨tr, htr, -, -, -, -, hok⟩ := requestWithRetry_total transport url timeout
  refine ⟨tr, htr, ?_, hok⟩
  rcases hres : tr.result with e | j
  · rcases e with m | m
    · exact Or.inr (Or.inl ⟨m, rfl⟩)
    · exact Or.inr (Or.inr ⟨m, rfl⟩)
  · exact Or.inl ⟨j, rfl⟩

/-- C7: for every host, `device_list` targets exactly
`http://host/cgi-bin/dl_cgi?Command=DeviceList`, `network_status` targets
exactly `http://host/cgi-bin/dl_cgi?Command=Get_Comm`, and
`energy_storage_system_status` targets exactly
`http://host/cgi-bin/dl_cgi/energy-storage-system/status`, each GET
carrying a 120-second timeout. -/
theorem url_construction (host : String) (t1 t2 t3 : Nat → Outcome α) :
    (∃ tr : RunTrace α, (SunPowerMonitor.init host).device_list t1 = some tr ∧
        tr.requests = List.replicate tr.requests.length
          ("http://" ++ host ++ "/cgi-bin/dl_cgi?Command=DeviceList", 120) ∧
        1 ≤ tr.requests.length) ∧
    (∃ tr : RunTrace α, (SunPowerMonitor.init host).network_status t2 = some tr ∧
        tr.requests = List.replicate tr.requests.length
          ("http://" ++ host ++ "/cgi-bin/dl_cgi?Command=Get_Comm", 120) ∧
        1 ≤ tr.requests.length) ∧
    (∃ tr : RunTrace α, (SunPowerMonitor.init host).energy_storage_system_status t3 = some tr ∧
        tr.requests = List.replicate tr.requests.length
          ("http://" ++ host ++ "/cgi-bin/dl_cgi/energy-storage-system/status", 120) ∧
        1 ≤ tr.requests.length) := by
  have hdl : ("http://" ++ host ++ "/cgi-bin/dl_cgi?Command=") ++ "DeviceList" =
      "http://" ++ host ++ "/cgi-bin/dl_cgi?Command=DeviceList" := by
    rw [String.append_assoc]
    rfl
  have hnet : ("http://" ++ host ++ "/cgi-bin/dl_cgi?Command=") ++ "Get_Comm" =
      "http://" ++ host ++ "/cgi-bin/dl_cgi?Command=Get_Comm" := by
    rw [String.append_assoc]
    rfl
  refine ⟨?_, ?_, ?_⟩
  · obtain ⟨tr, htr, hrep, h1, -, -, -⟩ := requestWithRetry_total t1
      ("http://" ++ host ++ "/cgi-bin/dl_cgi?Command=DeviceList") 120
    exact ⟨tr, by
      simpa [SunPowerMonitor.device_list, SunPowerMonitor.generic_command,
        SunPowerMonitor.init, hdl] using htr, hrep, h1⟩
  · obtain ⟨tr, htr, hrep, h1, -, -, -⟩ := requestWithRetry_total t2
      ("http://" ++ host ++ "/cgi-bin/dl_cgi?Command=Get_Comm") 120
    exact ⟨tr, by
      simpa [SunPowerMonitor.network_status, SunPowerMonitor.generic_command,
        SunPowerMonitor.init, hnet] using htr, hrep, h1⟩
  · obtain ⟨tr, htr, hrep, h1, -, -, -⟩ := requestWithRetry_total t3
      ("http://" ++ host ++ "/cgi-bin/dl_cgi/energy-storage-system/status") 120
    exact ⟨tr, by
      simpa [SunPowerMonitor.energy_storage_system_status, SunPowerMonitor.init]
        using htr, hrep, h1⟩

/-- C8 as stated is false on the code: `RETRY_DELAYS` has 3 entries while
`MAX_RETRIES - 1 = 2`. -/
theorem retry_delays_length_counterexample : ¬ (RETRY_DELAYS.length = MAX_RETRIES - 1) := by
  decide

/-- C8 amended: the delay sequence has exactly as many entries as the
maximum attempt count, `RETRY_DELAYS.length = MAX_RETRIES`, one more than
the `MAX_RETRIES - 1` delays that can ever be consumed. -/
theorem retry_delays_length_amended : RETRY_DELAYS.length = MAX_RETRIES := by
  decide

/-- C9: non-retryable classification applies at every attempt index: for
every k between 1 and `MAX_RETRIES`, a run with connectivity failures on
attempts 1 through k-1 and a timeout on attempt k raises a
`ConnectionException` immediately after exactly k requests and k-1
sleeps, without using the remaining retry budget. -/
theorem nonretryable_at_any_attempt (transport : Nat → Outcome α) (url : String)
    (timeout : Nat) (k : Nat) (hk1 : 1 ≤ k) (hk3 : k ≤ MAX_RETRIES)
    (e : Nat → String) (m : String)
    (hconn : ∀ i, i < k - 1 → transport i = .connectionError (e i))
    (ht : transport (k - 1) = .timeoutError m) :
    requestWithRetry transport url timeout =
      some ⟨List.replicate k (url, timeout), RETRY_DELAYS.take (k - 1),
        .error (.connectionException
          ("PVS request timed out after " ++ toString timeout ++ "s"))⟩ := by
  have hrange : List.range MAX_RETRIES = [0, 1, 2] := rfl
  have hk3n : k ≤ 3 := hk3
  unfold requestWithRetry
  rw [hrange]
  interval_cases k
  · simp [retryLoop, ht, RETRY_DELAYS]
  · have h0 := hconn 0 (by omega)
    simp [retryLoop, h0, ht, MAX_RETRIES, RETRY_DELAYS]
  · have h0 := hconn 0 (by omega)
    have h1 := hconn 1 (by omega)
    simp [retryLoop, h0, h1, ht, MAX_RETRIES, RETRY_DELAYS]

/-- Witness for C9 at k = 2 on a concrete transport. -/
theorem nonretryable_at_any_attempt_witness :
    requestWithRetry transportConnThenTimeout "http://pvs/x" 120 =
      some ⟨[("http://pvs/x", 120), ("http://pvs/x", 120)], [2],
        .error (.connectionException "PVS request timed out after 120s")⟩ :=
  nonretryable_at_any_attempt transportConnThenTimeout "http://pvs/x" 120 2
    (by decide) (by decide) (fun _ => "refused") "read timed out"
    (fun i hi => by
      have h : i = 0 := by omega
      subst h
      rfl)
    rfl

/-- C10: on every transport, `_request_with_retry` terminates after at
most `MAX_RETRIES` requests, every read of `RETRY_DELAYS` stays in
bounds (the run never ends in the `none` that models an IndexError), and
the sleep sequence is a prefix of `[2, 5]`, so the third entry 10 of
`RETRY_DELAYS` is never used. -/
theorem bounded_attempts_and_delays (transport : Nat → Outcome α) (url : String)
    (timeout : Nat) :
    ∃ tr : RunTrace α, requestWithRetry transport url timeout = some tr ∧
      tr.requests.length ≤ MAX_RETRIES ∧
      (tr.sleeps = [] ∨ tr.sleeps = [2] ∨ tr.sleeps = [2, 5]) := by
  obtain ⟨tr, htr, -, -, hle, hs, -⟩ := requestWithRetry_total transport url timeout
  exact ⟨tr, htr, hle, hs⟩

/-- Witness for C6 at a concrete transport, url and timeout. -/
theorem only_typed_errors_escape_witness :
    ∃ tr : RunTrace Nat, requestWithRetry transportBadJson "http://pvs/x" 120 = some tr ∧
      ((∃ j, tr.result = Except.ok j) ∨
        (∃ m, tr.result = Except.error (FetchError.connectionException m)) ∨
        (∃ m, tr.result = Except.error (FetchError.parseException m))) ∧
      (∀ j : Nat, tr.result = Except.ok j →
        transportBadJson (tr.requests.length - 1) = Outcome.success j) :=
  only_typed_errors_escape transportBadJson "http://pvs/x" 120

/-- Witness for C7 at a concrete host and transport. -/
theorem url_construction_witness :
    (∃ tr : RunTrace Nat, (SunPowerMonitor.init "pvs").device_list transportRetryTwice = some tr ∧
        tr.requests = List.replicate tr.requests.length
          ("http://" ++ "pvs" ++ "/cgi-bin/dl_cgi?Command=DeviceList", 120) ∧
        1 ≤ tr.requests.length) ∧
    (∃ tr : RunTrace Nat, (SunPowerMonitor.init "pvs").network_status transportRetryTwice = some tr ∧
        tr.requests = List.replicate tr.requests.length
          ("http://" ++ "pvs" ++ "/cgi-bin/dl_cgi?Command=Get_Comm", 120) ∧
        1 ≤ tr.requests.length) ∧
    (∃ tr : RunTrace Nat,
        (SunPowerMonitor.init "pvs").energy_storage_system_status transportRetryTwice = some tr ∧
        tr.requests = List.replicate tr.requests.length
          ("http://" ++ "pvs" ++ "/cgi-bin/dl_cgi/energy-storage-system/status", 120) ∧
        1 ≤ tr.requests.length) :=
  url_construction "pvs" transportRetryTwice transportRetryTwice transportRetryTwice

/-- Witness for C10 at a concrete transport, url and timeout. -/
theorem bounded_attempts_and_delays_witness :
    ∃ tr : RunTrace Nat, requestWithRetry transportAlwaysConnFail "http://pvs/x" 120 = some tr ∧
      tr.requests.length ≤ MAX_RETRIES ∧
      (tr.sleeps = [] ∨ tr.sleeps = [2] ∨ tr.sleeps = [2, 5]) :=
  bounded_attempts_and_delays transportAlwaysConnFail "http://pvs/x" 120
